import Mathlib

/-!
Shallow embedding of the `nuxt-directus` composables:
`src/runtime/composables/useDirectusItems.ts`,
`src/runtime/composables/useDirectusAuth.ts`, and the unnamed composable
file (`useDirectusAuth` variant with `signIn` / `signOut` / `fetchUser` /
cookie handling), together with theorems settling the specification
claims about them.

JavaScript values that matter to the code are modelled explicitly:
the `boolean | string | undefined` token-source flag with JS truthiness,
`error: any` caught values with their `message` / `errors` fields, the
values fed to `ohash`'s `hash` for cache keys, and the reactive cells
(user ref, access/refresh token cookies) as fields of an explicit state
record.  SDK calls are modelled as request descriptors; the network
outcome of each call is an oracle parameter of the corresponding run
function, so a run function is a pure function from inputs, outcomes and
initial state to final state, call trace, log trace, cookie-write trace
and result.
-/

/-- JS value of type `boolean | string | undefined`, the type of the
`useStaticToken` token-source flag used throughout the composables. -/
inductive TokenFlag where
  | undef
  | bool (b : Bool)
  | str (s : String)
deriving DecidableEq, Repr

/-- JS truthiness of a `TokenFlag` value: `undefined` and `false` are
falsy, a string is truthy iff non-empty. -/
def TokenFlag.truthy : TokenFlag → Bool
  | .undef => false
  | .bool b => b
  | .str s => s ≠ ""

/-- JS short-circuit `a || b` on token-source flags: yields `a` when `a`
is truthy, otherwise `b`. -/
def jsOr (a b : TokenFlag) : TokenFlag :=
  if a.truthy then a else b

/-- Options bag `DirectusReqOptions`: only carries `useStaticToken`
(absent field modelled as `TokenFlag.undef`). -/
structure DirectusReqOptions where
  useStaticToken : TokenFlag := .undef
deriving DecidableEq, Repr

/-- Options bag `DirectusReqItemOptions`: `useStaticToken` plus an
optional `query`. -/
structure DirectusReqItemOptions (Query : Type) where
  useStaticToken : TokenFlag := .undef
  query : Option Query := none

/-- Options bag for the read path (`AsyncDataDirectusReqItem`): an
optional explicit cache `key`, `useStaticToken`, optional `query` and
optional `params`. -/
structure AsyncDataReqOptions (Query Params : Type) where
  key : Option String := none
  useStaticToken : TokenFlag := .undef
  query : Option Query := none
  params : Option Params := none

/-- JS optional chain `options?.useStaticToken` on `DirectusReqOptions`:
`undefined` when `options` is `undefined`. -/
def reqOptTok : Option DirectusReqOptions → TokenFlag
  | none => .undef
  | some o => o.useStaticToken

/-- JS optional chain `options?.useStaticToken` on
`DirectusReqItemOptions`. -/
def itemOptTok {Query : Type} : Option (DirectusReqItemOptions Query) → TokenFlag
  | none => .undef
  | some o => o.useStaticToken

/-- JS optional chain `options?.query` on `DirectusReqItemOptions`. -/
def itemOptQuery {Query : Type} : Option (DirectusReqItemOptions Query) → Option Query
  | none => none
  | some o => o.query

/-- JS optional chain `options?.useStaticToken` on the read-path
options. -/
def asyncOptTok {Query Params : Type} :
    Option (AsyncDataReqOptions Query Params) → TokenFlag
  | none => .undef
  | some o => o.useStaticToken

/-- JS optional chain `options?.query` on the read-path options. -/
def asyncOptQuery {Query Params : Type} :
    Option (AsyncDataReqOptions Query Params) → Option Query
  | none => none
  | some o => o.query

/-- JS optional chain `options?.params` on the read-path options. -/
def asyncOptParams {Query Params : Type} :
    Option (AsyncDataReqOptions Query Params) → Option Params
  | none => none
  | some o => o.params

/-- JS optional chain `options?.key` on the read-path options. -/
def asyncOptKey {Query Params : Type} :
    Option (AsyncDataReqOptions Query Params) → Option String
  | none => none
  | some o => o.key

/-- Token-source flag handed to the client resolver by every
`useDirectusItems` wrapper: the source expression
`options?.useStaticToken || useStaticToken` (per-call flag short-circuit
or composable-level flag). -/
def clientFlag (perCall composable : TokenFlag) : TokenFlag :=
  jsOr perCall composable

theorem clientFlag_falsy_perCall (perCall composable : TokenFlag)
    (h : perCall.truthy = false) : clientFlag perCall composable = composable := by
  simp [clientFlag, jsOr, h]

theorem clientFlag_truthy_perCall (perCall composable : TokenFlag)
    (h : perCall.truthy = true) : clientFlag perCall composable = perCall := by
  simp [clientFlag, jsOr, h]

/-- Descriptor of a request built by one of the `@directus/sdk` item
request constructors, recording exactly the arguments handed to the
constructor. -/
inductive SdkRequest (Coll Id Item Query : Type) where
  | createItem (collection : Coll) (item : Item) (query : Option Query)
  | createItems (collection : Coll) (items : List Item) (query : Option Query)
  | readItem (collection : Coll) (id : Id) (query : Option Query)
  | readItems (collection : Coll) (query : Option Query)
  | readSingleton (collection : Coll) (query : Option Query)
  | updateItem (collection : Coll) (id : Id) (item : Item) (query : Option Query)
  | updateItems (collection : Coll) (ids : List Id) (item : Item) (query : Option Query)
  | updateSingleton (collection : Coll) (item : Item) (query : Option Query)
  | deleteItem (collection : Coll) (id : Id)
  | deleteItems (collection : Coll) (idOrQuery : Sum (List Id) Query)

/-- One `client(flag).request(req)` invocation: the token-source flag
given to the client resolver together with the SDK request built at that
call site. -/
structure ClientCall (Coll Id Item Query : Type) where
  flag : TokenFlag
  request : SdkRequest Coll Id Item Query

/-- Call built by `createItem` in `useDirectusItems`:
`client(options?.useStaticToken || useStaticToken).request(sdkCreateItem(collection, item, options?.query))`. -/
def createItemCall {Coll Id Item Query : Type} (tok : TokenFlag)
    (collection : Coll) (item : Item)
    (options : Option (DirectusReqItemOptions Query)) :
    ClientCall Coll Id Item Query :=
  ⟨clientFlag (itemOptTok options) tok,
   .createItem collection item (itemOptQuery options)⟩

/-- Call built by `createItems` in `useDirectusItems`. -/
def createItemsCall {Coll Id Item Query : Type} (tok : TokenFlag)
    (collection : Coll) (items : List Item)
    (options : Option (DirectusReqItemOptions Query)) :
    ClientCall Coll Id Item Query :=
  ⟨clientFlag (itemOptTok options) tok,
   .createItems collection items (itemOptQuery options)⟩

/-- Call built inside `readItem`'s `useAsyncData` handler:
`client(options?.useStaticToken || useStaticToken).request(sdkReadItem(collectionName.value, itemId.value, options?.query))`. -/
def readItemCall {Coll Id Item Query Params : Type} (tok : TokenFlag)
    (collection : Coll) (id : Id)
    (options : Option (AsyncDataReqOptions Query Params)) :
    ClientCall Coll Id Item Query :=
  ⟨clientFlag (asyncOptTok options) tok,
   .readItem collection id (asyncOptQuery options)⟩

/-- Call built inside `readItems`'s `useAsyncData` handler. -/
def readItemsCall {Coll Id Item Query Params : Type} (tok : TokenFlag)
    (collection : Coll)
    (options : Option (AsyncDataReqOptions Query Params)) :
    ClientCall Coll Id Item Query :=
  ⟨clientFlag (asyncOptTok options) tok,
   .readItems collection (asyncOptQuery options)⟩

/-- Call built inside `readSingleton`'s `useAsyncData` handler. -/
def readSingletonCall {Coll Id Item Query Params : Type} (tok : TokenFlag)
    (collection : Coll)
    (options : Option (AsyncDataReqOptions Query Params)) :
    ClientCall Coll Id Item Query :=
  ⟨clientFlag (asyncOptTok options) tok,
   .readSingleton collection (asyncOptQuery options)⟩

/-- Call built by `updateItem` in `useDirectusItems`. -/
def updateItemCall {Coll Id Item Query : Type} (tok : TokenFlag)
    (collection : Coll) (id : Id) (item : Item)
    (options : Option (DirectusReqItemOptions Query)) :
    ClientCall Coll Id Item Query :=
  ⟨clientFlag (itemOptTok options) tok,
   .updateItem collection id item (itemOptQuery options)⟩

/-- Call built by `updateItems` in `useDirectusItems`. -/
def updateItemsCall {Coll Id Item Query : Type} (tok : TokenFlag)
    (collection : Coll) (ids : List Id) (item : Item)
    (options : Option (DirectusReqItemOptions Query)) :
    ClientCall Coll Id Item Query :=
  ⟨clientFlag (itemOptTok options) tok,
   .updateItems collection ids item (itemOptQuery options)⟩

/-- Call built by `updateSingleton` in `useDirectusItems`. -/
def updateSingletonCall {Coll Id Item Query : Type} (tok : TokenFlag)
    (collection : Coll) (item : Item)
    (options : Option (DirectusReqItemOptions Query)) :
    ClientCall Coll Id Item Query :=
  ⟨clientFlag (itemOptTok options) tok,
   .updateSingleton collection item (itemOptQuery options)⟩

/-- Call built by `deleteItem` in `useDirectusItems`:
`client(options?.useStaticToken || useStaticToken).request(sdkDeleteItem(collection, id))`. -/
def deleteItemCall {Coll Id Item Query : Type} (tok : TokenFlag)
    (collection : Coll) (id : Id)
    (options : Option DirectusReqOptions) :
    ClientCall Coll Id Item Query :=
  ⟨clientFlag (reqOptTok options) tok,
   .deleteItem collection id⟩

/-- Call built by `deleteItems` in `useDirectusItems`:
`client(options?.useStaticToken || useStaticToken).request(sdkDeleteItems(collection, idOrQuery))`. -/
def deleteItemsCall {Coll Id Item Query : Type} (tok : TokenFlag)
    (collection : Coll) (idOrQuery : Sum (List Id) Query)
    (options : Option DirectusReqOptions) :
    ClientCall Coll Id Item Query :=
  ⟨clientFlag (reqOptTok options) tok,
   .deleteItems collection idOrQuery⟩

/-- Value caught by a `catch (error: any)` clause: whether the value
itself is JS-truthy, its `.message` field (`none` models `undefined`),
and its `.errors` field (the SDK's nested error list, one string per
nested error). -/
structure CaughtError where
  isTruthy : Bool := true
  message : Option String := none
  errors : List String := []
deriving DecidableEq, Repr

/-- JS truthiness of `error && error.message`: the caught value is
truthy and its `message` field is a non-empty string. -/
def caughtHasMessage (e : CaughtError) : Bool :=
  e.isTruthy && (match e.message with
    | none => false
    | some s => s ≠ "")

/-- One `console.error` emission: either the
`console.error("Couldn't ...", error.errors)` form (context string plus
nested error list) or the bare `console.error(error)` form. -/
inductive LogEntry where
  | context (ctx : String) (errors : List String)
  | raw (e : CaughtError)
deriving DecidableEq, Repr

/-- Value rethrown out of a catch clause: `throw error.errors` (the
nested list) or `throw error` (the raw caught value). -/
inductive Thrown where
  | nestedErrors (errors : List String)
  | raw (e : CaughtError)
deriving DecidableEq, Repr

/-- Shape of one wrapper function's catch clause, read off the source:
its context string, whether the `else` branch contains a
`console.error(error)` call, and whether the clause rethrows
(`throw error.errors` / `throw error`). -/
structure CatchBehavior where
  context : String
  logsRawWhenNoMessage : Bool
  rethrows : Bool
deriving DecidableEq, Repr

/-- Semantics of a catch clause of shape `b` applied to caught value
`e`: the list of log emissions and the optionally rethrown value
(`none` when the error is swallowed and the function returns
`undefined`). -/
def runCatch (b : CatchBehavior) (e : CaughtError) :
    List LogEntry × Option Thrown :=
  if caughtHasMessage e then
    ([.context b.context e.errors],
     if b.rethrows then some (.nestedErrors e.errors) else none)
  else
    ((if b.logsRawWhenNoMessage then [.raw e] else []),
     if b.rethrows then some (.raw e) else none)

/-- Catch clause of `useDirectusItems.createItem`: logs the context
string with `error.errors` when the error has a message; its `else`
branch holds only an eslint-disable comment and no `console.error`
call; it never rethrows. -/
def createItemCatch : CatchBehavior :=
  ⟨"Couldn't create item", false, false⟩

/-- Catch clause of `useDirectusItems.createItems`. -/
def createItemsCatch : CatchBehavior :=
  ⟨"Couldn't create items", true, false⟩

/-- Catch clause of `useDirectusItems.updateItem`. -/
def updateItemCatch : CatchBehavior :=
  ⟨"Couldn't update item", true, false⟩

/-- Catch clause of `useDirectusItems.updateItems`. -/
def updateItemsCatch : CatchBehavior :=
  ⟨"Couldn't update items", true, false⟩

/-- Catch clause of `useDirectusItems.updateSingleton`. -/
def updateSingletonCatch : CatchBehavior :=
  ⟨"Couldn't update singleton", true, false⟩

/-- Catch clause of `useDirectusItems.deleteItem`. -/
def deleteItemCatch : CatchBehavior :=
  ⟨"Couldn't delete item", true, false⟩

/-- Catch clause of `useDirectusItems.deleteItems`. -/
def deleteItemsCatch : CatchBehavior :=
  ⟨"Couldn't delete items", true, false⟩

/-- Catch clause of `useDirectusAuth.login`. -/
def loginCatch : CatchBehavior :=
  ⟨"Couldn't login user", true, false⟩

/-- Catch clause of `useDirectusAuth.refreshTokens`. -/
def refreshTokensCatch : CatchBehavior :=
  ⟨"Couldn't refresh tokens", true, false⟩

/-- Catch clause of `useDirectusAuth.logout` (context string carries the
source's spelling). -/
def logoutCatch : CatchBehavior :=
  ⟨"Couldn't logut user", true, false⟩

/-- Catch clause of `useDirectusAuth.passwordRequest`. -/
def passwordRequestCatch : CatchBehavior :=
  ⟨"Couldn't request password reset", true, false⟩

/-- Catch clause of `useDirectusAuth.passwordReset`. -/
def passwordResetCatch : CatchBehavior :=
  ⟨"Couldn't reset password", true, false⟩

/-- Catch clause of `useDirectusAuth.inviteUser`. -/
def inviteUserCatch : CatchBehavior :=
  ⟨"Couldn't invite user", true, false⟩

/-- Catch clause of `fetchUser` in the unnamed composable file: logs
and rethrows (`throw error.errors` / `throw error`). -/
def fetchUserCatch : CatchBehavior :=
  ⟨"Couldn't fetch user", true, true⟩

/-- Catch clause of `signIn` in the unnamed composable file. -/
def signInCatch : CatchBehavior :=
  ⟨"Couldn't login user", true, true⟩

/-- Catch clause of `refreshTokens` in the unnamed composable file. -/
def refreshTokens2Catch : CatchBehavior :=
  ⟨"Couldn't refresh tokens", true, true⟩

/-- Catch clause of `signOut` in the unnamed composable file. -/
def signOutCatch : CatchBehavior :=
  ⟨"Couldn't logut user", true, true⟩

/-- All try/catch clauses of the repository's exported functions, one
entry per function: the seven mutation wrappers of `useDirectusItems`,
the six functions of `useDirectusAuth`, and the four functions of the
unnamed composable file.  The read-path functions `readItem`,
`readItems`, `readSingleton` have no try/catch and do not appear. -/
def allCatchBehaviors : List CatchBehavior :=
  [createItemCatch, createItemsCatch, updateItemCatch, updateItemsCatch,
   updateSingletonCatch, deleteItemCatch, deleteItemsCatch,
   loginCatch, refreshTokensCatch, logoutCatch, passwordRequestCatch,
   passwordResetCatch, inviteUserCatch,
   fetchUserCatch, signInCatch, refreshTokens2Catch, signOutCatch]

/-- JS value appearing in the array handed to `ohash`'s `hash` when a
read-path cache key is computed: `undefined`, a string, a number, or a
plain object identified by the canonical serialization of its content. -/
inductive JVal where
  | undef
  | str (s : String)
  | num (n : Int)
  | obj (content : String)
deriving DecidableEq, Repr

/-- Lift an optional object content to the `JVal` that reaches `hash`:
`undefined` when absent, the object otherwise. -/
def jObj : Option String → JVal
  | none => JVal.undef
  | some c => JVal.obj c

/-- JS expression `options?.toString()`: `undefined` when `options` is
`undefined`; otherwise `Object.prototype.toString` on a plain options
object, which is the constant string `"[object Object]"` regardless of
the object's content. -/
def jsOptionsToString {Query Params : Type} :
    Option (AsyncDataReqOptions Query Params) → JVal
  | none => JVal.undef
  | some _ => JVal.str "[object Object]"

/-- Array hashed for `readItem`'s cache key:
`[collectionName.value, itemId.value, options?.query, options?.params]`. -/
def readItemKeyData (collection : String) (id : JVal)
    (options : Option (AsyncDataReqOptions String String)) : List JVal :=
  [JVal.str collection, id, jObj (asyncOptQuery options),
   jObj (asyncOptParams options)]

/-- Array hashed for `readItems`'s cache key:
`[unref(collectionName), options?.toString()]`. -/
def readItemsKeyData (collection : String)
    (options : Option (AsyncDataReqOptions String String)) : List JVal :=
  [JVal.str collection, jsOptionsToString options]

/-- Array hashed for `readSingleton`'s cache key:
`[collectionName.value, options?.query, options?.params]`. -/
def readSingletonKeyData (collection : String)
    (options : Option (AsyncDataReqOptions String String)) : List JVal :=
  [JVal.str collection, jObj (asyncOptQuery options),
   jObj (asyncOptParams options)]

/-- Cache key handed to `useAsyncData`: the caller's explicit
`options?.key` when present (`??`), otherwise the hash of the computed
array, represented by the array itself (`ohash.hash` is a pure content
hash, so two equal arrays always produce the same key). -/
inductive CacheKey where
  | explicit (k : String)
  | hashed (data : List JVal)
deriving DecidableEq, Repr

/-- Cache key used by `readItem`: `options?.key ?? key.value`. -/
def readItemKey (collection : String) (id : JVal)
    (options : Option (AsyncDataReqOptions String String)) : CacheKey :=
  match asyncOptKey options with
  | some k => .explicit k
  | none => .hashed (readItemKeyData collection id options)

/-- Cache key used by `readItems`: `options?.key ?? key.value`. -/
def readItemsKey (collection : String)
    (options : Option (AsyncDataReqOptions String String)) : CacheKey :=
  match asyncOptKey options with
  | some k => .explicit k
  | none => .hashed (readItemsKeyData collection options)

/-- Cache key used by `readSingleton`: `options?.key ?? key.value`. -/
def readSingletonKey (collection : String)
    (options : Option (AsyncDataReqOptions String String)) : CacheKey :=
  match asyncOptKey options with
  | some k => .explicit k
  | none => .hashed (readSingletonKeyData collection options)

/-- Current-user record returned by the backend's `readMe` read; its
content is irrelevant to the composables, which only store it. -/
abbrev UserData := String

/-- Reactive application state visible to the composables: the user
session ref, the access- and refresh-token cookie cells, and `other`,
an abstract stand-in for every other piece of application state (which
none of this code mentions). -/
structure AuthState where
  user : Option UserData := none
  accessToken : Option String := none
  refreshToken : Option String := none
  other : Nat := 0
deriving DecidableEq, Repr

/-- Auth response returned by the SDK's `login` / `refresh`:
`access_token`, `refresh_token` (string or null), `expires_at` and
`expires` (number or null). -/
structure AuthResponse where
  access_token : Option String := none
  refresh_token : Option String := none
  expires_at : Option Int := none
  expires : Option Int := none
deriving DecidableEq, Repr

/-- Outcome of one awaited SDK call: resolved with a value, or rejected
with the value the `catch` clause would receive. -/
inductive Outcome (α : Type) where
  | ok (v : α)
  | thrown (e : CaughtError)

/-- Which cookie cell a write targets. -/
inductive CookieName where
  | accessToken
  | refreshToken
deriving DecidableEq, Repr

/-- One cookie write: target cell, value written (null modelled as
`none`), and the `maxAge` the cookie helper was called with
(`none` when called with no expiry argument). -/
structure CookieWrite where
  name : CookieName
  value : Option String
  maxAge : Option Int
deriving DecidableEq, Repr

/-- SDK-level request dispatched by one of the auth composables'
functions. -/
inductive AuthSdkCall where
  | login (identifier password : String)
  | loginWithMode (identifier password mode : String)
  | refresh
  | logout
  | requestWithTokenReadMe (token : Option String)
  | requestReadMe
  | readMeUser
  | passwordRequest (email : String) (resetUrl : Option String)
  | passwordReset (token password : String)
  | inviteUser (email role : String) (inviteUrl : Option String)
deriving DecidableEq, Repr

/-- Trace and result of one auth-composable function invocation: final
state, SDK calls dispatched, cookie writes performed, log emissions,
the value rethrown out of the function (if any), and the returned
value (`none` when the function returned `undefined` or threw). -/
structure AuthRun (α : Type) where
  state : AuthState
  calls : List AuthSdkCall := []
  cookieWrites : List CookieWrite := []
  logs : List LogEntry := []
  thrown : Option Thrown := none
  value : Option α := none

/-- Object returned by `signIn` / `refreshTokens` in the unnamed
composable file (camelCase keys). -/
structure SignInResult where
  accessToken : Option String
  refreshToken : Option String
  expiresAt : Option Int
  expires : Option Int
deriving DecidableEq, Repr

/-- Object returned by `login` / `refreshTokens` in
`useDirectusAuth` (snake_case keys, copied off the auth response). -/
structure LoginResult where
  access_token : Option String
  refresh_token : Option String
  expires_at : Option Int
  expires : Option Int
deriving DecidableEq, Repr

/-- Cookie writes performed by `signIn` / `refreshTokens` in the
unnamed composable file: guarded by `authResponse.expires !== null`;
inside the guard, `refreshToken(expires).value = refresh_token` then
`accessToken(expires).value = access_token`. -/
def expiresGuardWrites (resp : AuthResponse) : List CookieWrite :=
  match resp.expires with
  | none => []
  | some n =>
      [⟨.refreshToken, resp.refresh_token, some n⟩,
       ⟨.accessToken, resp.access_token, some n⟩]

/-- Cookie cells after the `expires !== null` guard of `signIn` /
`refreshTokens` in the unnamed composable file. -/
def expiresGuardState (resp : AuthResponse) (s : AuthState) : AuthState :=
  match resp.expires with
  | none => s
  | some _ => { s with refreshToken := resp.refresh_token,
                       accessToken := resp.access_token }

/-- Run of `signIn` from the unnamed composable file:
`directus.login(identifier, password)`, then (when `expires` is not
null) the two cookie writes, then
`directus.request(withToken(access_token, readMe()))`, `setUser`, and
the camelCase result object; any rejection is logged and rethrown by
`signInCatch`. -/
def signInRun (identifier password : String)
    (loginOut : Outcome AuthResponse) (readMeOut : Outcome UserData)
    (s : AuthState) : AuthRun SignInResult :=
  match loginOut with
  | .thrown e =>
      { state := s, calls := [.login identifier password],
        logs := (runCatch signInCatch e).1,
        thrown := (runCatch signInCatch e).2 }
  | .ok resp =>
      match readMeOut with
      | .thrown e =>
          { state := expiresGuardState resp s,
            calls := [.login identifier password,
                      .requestWithTokenReadMe resp.access_token],
            cookieWrites := expiresGuardWrites resp,
            logs := (runCatch signInCatch e).1,
            thrown := (runCatch signInCatch e).2 }
      | .ok u =>
          { state := { expiresGuardState resp s with user := some u },
            calls := [.login identifier password,
                      .requestWithTokenReadMe resp.access_token],
            cookieWrites := expiresGuardWrites resp,
            value := some ⟨resp.access_token, resp.refresh_token,
                           resp.expires_at, resp.expires⟩ }

/-- Run of `refreshTokens` from the unnamed composable file: same shape
as `signIn` with `directus.refresh()` in place of the login call. -/
def refreshTokens2Run (refreshOut : Outcome AuthResponse)
    (readMeOut : Outcome UserData) (s : AuthState) : AuthRun SignInResult :=
  match refreshOut with
  | .thrown e =>
      { state := s, calls := [.refresh],
        logs := (runCatch refreshTokens2Catch e).1,
        thrown := (runCatch refreshTokens2Catch e).2 }
  | .ok resp =>
      match readMeOut with
      | .thrown e =>
          { state := expiresGuardState resp s,
            calls := [.refresh, .requestWithTokenReadMe resp.access_token],
            cookieWrites := expiresGuardWrites resp,
            logs := (runCatch refreshTokens2Catch e).1,
            thrown := (runCatch refreshTokens2Catch e).2 }
      | .ok u =>
          { state := { expiresGuardState resp s with user := some u },
            calls := [.refresh, .requestWithTokenReadMe resp.access_token],
            cookieWrites := expiresGuardWrites resp,
            value := some ⟨resp.access_token, resp.refresh_token,
                           resp.expires_at, resp.expires⟩ }

/-- Run of `signOut` from the unnamed composable file:
`directus.logout()`, then `accessToken().value = null`,
`refreshToken().value = null`, `user.value = null`; a rejection is
logged and rethrown before any cell is touched. -/
def signOutRun (logoutOut : Outcome Unit) (s : AuthState) : AuthRun Unit :=
  match logoutOut with
  | .thrown e =>
      { state := s, calls := [.logout],
        logs := (runCatch signOutCatch e).1,
        thrown := (runCatch signOutCatch e).2 }
  | .ok _ =>
      { state := { s with accessToken := none, refreshToken := none,
                          user := none },
        calls := [.logout],
        cookieWrites := [⟨.accessToken, none, none⟩,
                         ⟨.refreshToken, none, none⟩],
        value := some () }

/-- JS truthiness of the `accessToken()` cookie value guarding
`fetchUser`'s request. -/
def cookieTruthy : Option String → Bool
  | none => false
  | some s => s ≠ ""

/-- Run of `fetchUser` from the unnamed composable file: when the
access-token cookie is truthy, one `request(readMe())`, `setUser` on
success, log-and-rethrow on rejection; otherwise no call at all; either
way the function returns the `user` ref. -/
def fetchUserRun (readMeOut : Outcome UserData) (s : AuthState) :
    AuthRun (Option UserData) :=
  if cookieTruthy s.accessToken then
    match readMeOut with
    | .thrown e =>
        { state := s, calls := [.requestReadMe],
          logs := (runCatch fetchUserCatch e).1,
          thrown := (runCatch fetchUserCatch e).2 }
    | .ok u =>
        { state := { s with user := some u }, calls := [.requestReadMe],
          value := some (some u) }
  else
    { state := s, value := some s.user }

/-- Options object `LoginOptions` accepted by `useDirectusAuth.login`;
only the `mode` key interacts with the defaulting logic. -/
structure LoginOptions where
  mode : Option String := none
deriving DecidableEq, Repr

/-- Mode after `defu(options, { mode: useNuxtCookies ? 'json' : 'cookie' })`:
the caller's `mode` when present, else the config-derived default. -/
def loginMode (useNuxtCookies : Bool) (options : Option LoginOptions) : String :=
  match options with
  | some o =>
      match o.mode with
      | some m => m
      | none => if useNuxtCookies then "json" else "cookie"
  | none => if useNuxtCookies then "json" else "cookie"

/-- Run of `useDirectusAuth.login`:
`client().login(identifier, password, params)`, then
`readMe({ useStaticToken: false })` (the current-user read provided by
`useDirectusUser` — that composable is not among the given sources;
modelled from the spec's login flow as a single current-user SDK read),
then `setUser`; a rejection of either await is logged and swallowed. -/
def loginRun (useNuxtCookies : Bool) (identifier password : String)
    (options : Option LoginOptions)
    (loginOut : Outcome AuthResponse) (readMeOut : Outcome UserData)
    (s : AuthState) : AuthRun LoginResult :=
  match loginOut with
  | .thrown e =>
      { state := s,
        calls := [.loginWithMode identifier password
                    (loginMode useNuxtCookies options)],
        logs := (runCatch loginCatch e).1,
        thrown := (runCatch loginCatch e).2 }
  | .ok resp =>
      match readMeOut with
      | .thrown e =>
          { state := s,
            calls := [.loginWithMode identifier password
                        (loginMode useNuxtCookies options), .readMeUser],
            logs := (runCatch loginCatch e).1,
            thrown := (runCatch loginCatch e).2 }
      | .ok u =>
          { state := { s with user := some u },
            calls := [.loginWithMode identifier password
                        (loginMode useNuxtCookies options), .readMeUser],
            value := some ⟨resp.access_token, resp.refresh_token,
                           resp.expires_at, resp.expires⟩ }

/-- Run of `useDirectusAuth.refreshTokens`: `client().refresh()`, then
the current-user read and `setUser`; rejection logged and swallowed. -/
def refreshTokens1Run (refreshOut : Outcome AuthResponse)
    (readMeOut : Outcome UserData) (s : AuthState) : AuthRun LoginResult :=
  match refreshOut with
  | .thrown e =>
      { state := s, calls := [.refresh],
        logs := (runCatch refreshTokensCatch e).1,
        thrown := (runCatch refreshTokensCatch e).2 }
  | .ok resp =>
      match readMeOut with
      | .thrown e =>
          { state := s, calls := [.refresh, .readMeUser],
            logs := (runCatch refreshTokensCatch e).1,
            thrown := (runCatch refreshTokensCatch e).2 }
      | .ok u =>
          { state := { s with user := some u },
            calls := [.refresh, .readMeUser],
            value := some ⟨resp.access_token, resp.refresh_token,
                           resp.expires_at, resp.expires⟩ }

/-- Run of `useDirectusAuth.logout`: `client().logout()`, then
`user.value = undefined` (written twice in the source, same effect); a
rejection is logged and swallowed before the cell is touched. -/
def logoutRun (logoutOut : Outcome Unit) (s : AuthState) : AuthRun Unit :=
  match logoutOut with
  | .thrown e =>
      { state := s, calls := [.logout],
        logs := (runCatch logoutCatch e).1,
        thrown := (runCatch logoutCatch e).2,
        value := some () }
  | .ok _ =>
      { state := { s with user := none }, calls := [.logout],
        value := some () }

/-- Run of `useDirectusAuth.passwordRequest`:
`client(options.useStaticToken).request(sdkPasswordRequest(email, reset_url))`;
rejection logged and swallowed; no state is touched. -/
def passwordRequestRun (email : String) (resetUrl : Option String)
    (out : Outcome Unit) (s : AuthState) : AuthRun Unit :=
  match out with
  | .thrown e =>
      { state := s, calls := [.passwordRequest email resetUrl],
        logs := (runCatch passwordRequestCatch e).1,
        thrown := (runCatch passwordRequestCatch e).2,
        value := some () }
  | .ok _ =>
      { state := s, calls := [.passwordRequest email resetUrl],
        value := some () }

/-- Run of `useDirectusAuth.passwordReset`:
`client(options.useStaticToken).request(sdkPasswordReset(token, password))`. -/
def passwordResetRun (token password : String)
    (out : Outcome Unit) (s : AuthState) : AuthRun Unit :=
  match out with
  | .thrown e =>
      { state := s, calls := [.passwordReset token password],
        logs := (runCatch passwordResetCatch e).1,
        thrown := (runCatch passwordResetCatch e).2,
        value := some () }
  | .ok _ =>
      { state := s, calls := [.passwordReset token password],
        value := some () }

/-- Run of `useDirectusAuth.inviteUser`:
`client(options.useStaticToken).request(sdkInviteUser(email, role, invite_url))`. -/
def inviteUserRun (email role : String) (inviteUrl : Option String)
    (out : Outcome Unit) (s : AuthState) : AuthRun Unit :=
  match out with
  | .thrown e =>
      { state := s, calls := [.inviteUser email role inviteUrl],
        logs := (runCatch inviteUserCatch e).1,
        thrown := (runCatch inviteUserCatch e).2,
        value := some () }
  | .ok _ =>
      { state := s, calls := [.inviteUser email role inviteUrl],
        value := some () }

/-- Trace and result of one `useDirectusItems` wrapper invocation:
final state (these wrappers mention no reactive cell, so state passes
through), the single `client(...).request(...)` call, logs, rethrown
value and returned value. -/
structure ItemRun (Coll Id Item Query α : Type) where
  state : AuthState
  calls : List (ClientCall Coll Id Item Query)
  logs : List LogEntry := []
  thrown : Option Thrown := none
  value : Option α := none

/-- Run of one `useDirectusItems` mutation wrapper: dispatch the single
SDK call; on resolution return its value, on rejection delegate to the
wrapper's catch clause. -/
def runItemWrapper {Coll Id Item Query α : Type} (b : CatchBehavior)
    (call : ClientCall Coll Id Item Query) (out : Outcome α)
    (s : AuthState) : ItemRun Coll Id Item Query α :=
  match out with
  | .ok v => { state := s, calls := [call], value := some v }
  | .thrown e =>
      { state := s, calls := [call],
        logs := (runCatch b e).1, thrown := (runCatch b e).2 }

/-- Trace and result of one read-path invocation: the key handed to
`useAsyncData`, the single SDK call its handler performs, and the
async-data result (`data` on resolution, `error` on rejection —
captured by `useAsyncData` itself, the composable has no try/catch and
emits no log). -/
structure ReadRun (Coll Id Item Query α : Type) where
  state : AuthState
  key : CacheKey
  calls : List (ClientCall Coll Id Item Query)
  logs : List LogEntry := []
  data : Option α := none
  error : Option CaughtError := none

/-- Run of `readItem`: cache key from `options?.key ?? hash([...])`,
one SDK call inside the `useAsyncData` handler. -/
def readItemRun {α : Type} (tok : TokenFlag) (collection : String)
    (id : JVal) (options : Option (AsyncDataReqOptions String String))
    (out : Outcome α) (s : AuthState) :
    ReadRun String JVal Unit String α :=
  { state := s,
    key := readItemKey collection id options,
    calls := [readItemCall tok collection id options],
    data := match out with | .ok v => some v | .thrown _ => none,
    error := match out with | .ok _ => none | .thrown e => some e }

/-- Run of `readItems`. -/
def readItemsRun {α : Type} (tok : TokenFlag) (collection : String)
    (options : Option (AsyncDataReqOptions String String))
    (out : Outcome α) (s : AuthState) :
    ReadRun String JVal Unit String α :=
  { state := s,
    key := readItemsKey collection options,
    calls := [readItemsCall tok collection options],
    data := match out with | .ok v => some v | .thrown _ => none,
    error := match out with | .ok _ => none | .thrown e => some e }

/-- Run of `readSingleton`. -/
def readSingletonRun {α : Type} (tok : TokenFlag) (collection : String)
    (options : Option (AsyncDataReqOptions String String))
    (out : Outcome α) (s : AuthState) :
    ReadRun String JVal Unit String α :=
  { state := s,
    key := readSingletonKey collection options,
    calls := [readSingletonCall tok collection options],
    data := match out with | .ok v => some v | .thrown _ => none,
    error := match out with | .ok _ => none | .thrown e => some e }

/-- Claim C1, evaluated at the failing input: `readItems` hashes
`[collection, options?.toString()]`, and `toString` of any options
object is the constant `"[object Object]"`, so two calls with the same
collection but different query content get the same cache key, while a
call with no options object and a call with an empty options object —
whose collection, query and params all coincide — get different keys.
The sibling `readItem` key does distinguish the query content. -/
theorem claim_C1_readItems_key_ignores_content :
    readItemsKey "posts" (some { query := some "limit=1" }) =
        readItemsKey "posts" (some { query := some "limit=2" })
    ∧ readItemsKey "posts" none ≠
        readItemsKey "posts" (some ({} : AsyncDataReqOptions String String))
    ∧ readItemKey "posts" (JVal.str "7") (some { query := some "limit=1" }) ≠
        readItemKey "posts" (JVal.str "7") (some { query := some "limit=2" }) := by
  decide

/-- Claim C2, counterexample: `readItems` is an exported operation, yet
it has no try/catch — a rejection of its SDK call, even one carrying a
message, produces no log at all and lands in `useAsyncData`'s error
slot. -/
theorem claim_C2_counterexample :
    (readItemsRun TokenFlag.undef "posts" none
        ((Outcome.thrown ⟨true, some "Bad Request", ["err"]⟩ : Outcome Unit))
        {}).logs = []
    ∧ caughtHasMessage ⟨true, some "Bad Request", ["err"]⟩ = true
    ∧ (readItemsRun TokenFlag.undef "posts" none
        ((Outcome.thrown ⟨true, some "Bad Request", ["err"]⟩ : Outcome Unit))
        {}).error = some ⟨true, some "Bad Request", ["err"]⟩ := by
  refine ⟨rfl, by decide, rfl⟩

/-- Claim C2 as amended: every try/catch-wrapped exported function
(all of them except the read path), on a caught error that carries a
message, logs exactly its context string with `error.errors` and
rethrows the nested error list iff its clause rethrows; the unnamed
file's functions rethrow while `useDirectusAuth` and the
`useDirectusItems` mutations swallow; the read-path functions log
nothing ever. -/
theorem claim_C2_amended (b : CatchBehavior) (hb : b ∈ allCatchBehaviors)
    (e : CaughtError) (he : caughtHasMessage e = true) :
    (runCatch b e).1 = [LogEntry.context b.context e.errors]
    ∧ (runCatch b e).2 =
        (if b.rethrows then some (Thrown.nestedErrors e.errors) else none)
    ∧ signInCatch.rethrows = true
    ∧ loginCatch.rethrows = false
    ∧ createItemCatch.rethrows = false
    ∧ ∀ (tok : TokenFlag) (collection : String)
        (o : Option (AsyncDataReqOptions String String))
        (out : Outcome Unit) (s : AuthState),
        (readItemsRun tok collection o out s).logs = [] := by
  refine ⟨by simp [runCatch, he], by simp [runCatch, he], rfl, rfl, rfl, ?_⟩
  intro tok collection o out s
  rfl

/-- Claim C2 amended, witness: the rethrowing `fetchUser` clause on a
concrete message-carrying error. -/
theorem claim_C2_amended_witness :
    (runCatch fetchUserCatch ⟨true, some "Forbidden", ["perm"]⟩).1 =
        [LogEntry.context "Couldn't fetch user" ["perm"]]
    ∧ (runCatch fetchUserCatch ⟨true, some "Forbidden", ["perm"]⟩).2 =
        some (Thrown.nestedErrors ["perm"])
    ∧ signInCatch.rethrows = true
    ∧ loginCatch.rethrows = false
    ∧ createItemCatch.rethrows = false
    ∧ ∀ (tok : TokenFlag) (collection : String)
        (o : Option (AsyncDataReqOptions String String))
        (out : Outcome Unit) (s : AuthState),
        (readItemsRun tok collection o out s).logs = [] := by
  exact claim_C2_amended fetchUserCatch (by decide)
    ⟨true, some "Forbidden", ["perm"]⟩ (by decide)

/-- Claim C3, evaluated at the failing input: `createItem`'s catch
clause, on a caught error without a message, emits no log and rethrows
nothing — the error is silently discarded — while its sibling
`createItems` logs the raw error in the same situation. -/
theorem claim_C3_createItem_silent :
    runCatch createItemCatch ⟨true, none, ["violation"]⟩ = ([], none)
    ∧ runCatch createItemsCatch ⟨true, none, ["violation"]⟩ =
        ([LogEntry.raw ⟨true, none, ["violation"]⟩], none) := by
  decide

/-- Claim C4: every CRUD wrapper of `useDirectusItems` hands the
caller's collection, id(s), payload and `options?.query` to the SDK
request constructor unchanged — the built request is exactly the
constructor applied to those values. -/
theorem claim_C4_arguments_forwarded (Coll Id Item Query Params : Type)
    (tok : TokenFlag) (c : Coll) (id : Id) (ids : List Id) (i : Item)
    (items : List Item) (idOrQuery : Sum (List Id) Query)
    (o1 : Option (DirectusReqItemOptions Query))
    (o2 : Option (AsyncDataReqOptions Query Params))
    (o3 : Option DirectusReqOptions) :
    (createItemCall tok c i o1 : ClientCall Coll Id Item Query).request =
        SdkRequest.createItem c i (itemOptQuery o1)
    ∧ (createItemsCall tok c items o1 : ClientCall Coll Id Item Query).request =
        SdkRequest.createItems c items (itemOptQuery o1)
    ∧ (readItemCall tok c id o2 : ClientCall Coll Id Item Query).request =
        SdkRequest.readItem c id (asyncOptQuery o2)
    ∧ (readItemsCall tok c o2 : ClientCall Coll Id Item Query).request =
        SdkRequest.readItems c (asyncOptQuery o2)
    ∧ (readSingletonCall tok c o2 : ClientCall Coll Id Item Query).request =
        SdkRequest.readSingleton c (asyncOptQuery o2)
    ∧ (updateItemCall tok c id i o1 : ClientCall Coll Id Item Query).request =
        SdkRequest.updateItem c id i (itemOptQuery o1)
    ∧ (updateItemsCall tok c ids i o1 : ClientCall Coll Id Item Query).request =
        SdkRequest.updateItems c ids i (itemOptQuery o1)
    ∧ (updateSingletonCall tok c i o1 : ClientCall Coll Id Item Query).request =
        SdkRequest.updateSingleton c i (itemOptQuery o1)
    ∧ (deleteItemCall tok c id o3 : ClientCall Coll Id Item Query).request =
        SdkRequest.deleteItem c id
    ∧ (deleteItemsCall tok c idOrQuery o3 : ClientCall Coll Id Item Query).request =
        SdkRequest.deleteItems c idOrQuery := by
  exact ⟨rfl, rfl, rfl, rfl, rfl, rfl, rfl, rfl, rfl, rfl⟩

/-- The `expires !== null` guard never touches the abstract rest of the
application state. -/
theorem expiresGuardState_other (resp : AuthResponse) (s : AuthState) :
    (expiresGuardState resp s).other = s.other := by
  unfold expiresGuardState
  cases resp.expires <;> rfl

/-- Claim C6: no exported operation touches any application state
beyond the user-session ref and the token cookie cells — the abstract
`other` component of the state is preserved by every run, whatever the
SDK outcomes. -/
theorem claim_C6_state_frame (Coll Id Item Query α : Type)
    (b : CatchBehavior) (call : ClientCall Coll Id Item Query)
    (out : Outcome α) (ou : Outcome Unit) (ob : Outcome Unit)
    (lo : Outcome AuthResponse) (ro : Outcome UserData)
    (useNuxtCookies : Bool)
    (identifier password email role token : String)
    (resetUrl inviteUrl : Option String) (lopts : Option LoginOptions)
    (tok : TokenFlag) (collection : String) (jid : JVal)
    (o2 : Option (AsyncDataReqOptions String String)) (s : AuthState) :
    (runItemWrapper b call out s).state.other = s.other
    ∧ (readItemRun tok collection jid o2 out s).state.other = s.other
    ∧ (readItemsRun tok collection o2 out s).state.other = s.other
    ∧ (readSingletonRun tok collection o2 out s).state.other = s.other
    ∧ (signInRun identifier password lo ro s).state.other = s.other
    ∧ (refreshTokens2Run lo ro s).state.other = s.other
    ∧ (signOutRun ob s).state.other = s.other
    ∧ (fetchUserRun ro s).state.other = s.other
    ∧ (loginRun useNuxtCookies identifier password lopts lo ro s).state.other = s.other
    ∧ (refreshTokens1Run lo ro s).state.other = s.other
    ∧ (logoutRun ob s).state.other = s.other
    ∧ (passwordRequestRun email resetUrl ou s).state.other = s.other
    ∧ (passwordResetRun token password ou s).state.other = s.other
    ∧ (inviteUserRun email role inviteUrl ou s).state.other = s.other := by
  refine ⟨?_, rfl, rfl, rfl, ?_, ?_, ?_, ?_, ?_, ?_, ?_, ?_, ?_, ?_⟩
  · cases out <;> rfl
  · cases lo with
    | thrown e => rfl
    | ok resp =>
        cases ro with
        | thrown e => exact expiresGuardState_other resp s
        | ok u => exact expiresGuardState_other resp s
  · cases lo with
    | thrown e => rfl
    | ok resp =>
        cases ro with
        | thrown e => exact expiresGuardState_other resp s
        | ok u => exact expiresGuardState_other resp s
  · cases ob <;> rfl
  · unfold fetchUserRun
    by_cases h : cookieTruthy s.accessToken = true
    · simp only [h, if_true]
      cases ro <;> rfl
    · simp only [eq_false_of_ne_true h]
      simp
  · cases lo with
    | thrown e => rfl
    | ok resp => cases ro <;> rfl
  · cases lo with
    | thrown e => rfl
    | ok resp => cases ro <;> rfl
  · cases ob <;> rfl
  · cases ou <;> rfl
  · cases ou <;> rfl
  · cases ou <;> rfl

/-- Claim C7: every `useDirectusItems` wrapper resolves its client with
`options?.useStaticToken || useStaticToken` (JS short-circuit or), so
whenever the per-call flag is falsy (`false`, `undefined`, `""`) and
the composable-level flag is truthy, the composable-level flag wins —
an explicit per-call `false` cannot override a truthy composable-level
default. -/
theorem claim_C7_static_token_or (Coll Id Item Query Params : Type)
    (tok : TokenFlag) (c : Coll) (id : Id) (i : Item)
    (o1 : Option (DirectusReqItemOptions Query))
    (o2 : Option (AsyncDataReqOptions Query Params))
    (o3 : Option DirectusReqOptions)
    (h1 : (itemOptTok o1).truthy = false)
    (h2 : (asyncOptTok o2).truthy = false)
    (h3 : (reqOptTok o3).truthy = false)
    (ht : tok.truthy = true) :
    (createItemCall tok c i o1 : ClientCall Coll Id Item Query).flag = tok
    ∧ (readItemsCall tok c o2 : ClientCall Coll Id Item Query).flag = tok
    ∧ (readItemCall tok c id o2 : ClientCall Coll Id Item Query).flag = tok
    ∧ (deleteItemCall tok c id o3 : ClientCall Coll Id Item Query).flag = tok
    ∧ (updateItemCall tok c id i o1 : ClientCall Coll Id Item Query).flag = tok
    ∧ ∀ perCall : TokenFlag, perCall.truthy = false →
        clientFlag perCall tok = tok := by
  refine ⟨?_, ?_, ?_, ?_, ?_, ?_⟩
  · exact clientFlag_falsy_perCall _ _ h1
  · exact clientFlag_falsy_perCall _ _ h2
  · exact clientFlag_falsy_perCall _ _ h2
  · exact clientFlag_falsy_perCall _ _ h3
  · exact clientFlag_falsy_perCall _ _ h1
  · intro perCall hp
    exact clientFlag_falsy_perCall _ _ hp

/-- Claim C7, witness: composable-level flag `true`, per-call flag an
explicit `false` in each options bag. -/
theorem claim_C7_static_token_or_witness :
    (createItemCall (TokenFlag.bool true) "posts" "payload"
        (some ⟨TokenFlag.bool false, none⟩) :
        ClientCall String String String String).flag = TokenFlag.bool true
    ∧ (readItemsCall (TokenFlag.bool true) "posts"
        ((some ⟨none, TokenFlag.bool false, none, none⟩ :
          Option (AsyncDataReqOptions String String))) :
        ClientCall String String String String).flag = TokenFlag.bool true
    ∧ (readItemCall (TokenFlag.bool true) "posts" "7"
        ((some ⟨none, TokenFlag.bool false, none, none⟩ :
          Option (AsyncDataReqOptions String String))) :
        ClientCall String String String String).flag = TokenFlag.bool true
    ∧ (deleteItemCall (TokenFlag.bool true) "posts" "7"
        (some ⟨TokenFlag.bool false⟩) :
        ClientCall String String String String).flag = TokenFlag.bool true
    ∧ (updateItemCall (TokenFlag.bool true) "posts" "7" "payload"
        (some ⟨TokenFlag.bool false, none⟩) :
        ClientCall String String String String).flag = TokenFlag.bool true
    ∧ ∀ perCall : TokenFlag, perCall.truthy = false →
        clientFlag perCall (TokenFlag.bool true) = TokenFlag.bool true := by
  exact claim_C7_static_token_or String String String String String
    (TokenFlag.bool true) "posts" "7" "payload"
    (some ⟨TokenFlag.bool false, none⟩)
    (some ⟨none, TokenFlag.bool false, none, none⟩)
    (some ⟨TokenFlag.bool false⟩)
    (by decide) (by decide) (by decide) (by decide)

/-- Claim C8: both logout variants clear session state only after the
SDK logout call resolves; on rejection, the user ref, and for `signOut`
also the token cookies, are untouched (and no cookie write occurs). -/
theorem claim_C8_logout_atomic (e : CaughtError) (s : AuthState) :
    (logoutRun (Outcome.thrown e) s).state = s
    ∧ (signOutRun (Outcome.thrown e) s).state = s
    ∧ (signOutRun (Outcome.thrown e) s).cookieWrites = []
    ∧ (logoutRun (Outcome.ok ()) s).state = { s with user := none }
    ∧ (signOutRun (Outcome.ok ()) s).state =
        { s with user := none, accessToken := none, refreshToken := none } := by
  exact ⟨rfl, rfl, rfl, rfl, rfl⟩

/-- Claim C9: on a successful `signIn`, cookies are written exactly
when the auth response's `expires` is non-null — no write and unchanged
cookie cells when it is null, the refresh- then access-token writes
with `maxAge = expires` otherwise — while the returned object carries
the access and refresh tokens in every case. -/
theorem claim_C9_cookie_writes (identifier password : String)
    (resp : AuthResponse) (u : UserData) (s : AuthState) :
    ((signInRun identifier password (Outcome.ok resp) (Outcome.ok u) s).cookieWrites
        = [] ↔ resp.expires = none)
    ∧ (∀ n : Int, resp.expires = some n →
        (signInRun identifier password (Outcome.ok resp) (Outcome.ok u) s).cookieWrites
          = [⟨CookieName.refreshToken, resp.refresh_token, some n⟩,
             ⟨CookieName.accessToken, resp.access_token, some n⟩])
    ∧ (resp.expires = none →
        (signInRun identifier password (Outcome.ok resp) (Outcome.ok u) s).state.accessToken
            = s.accessToken
        ∧ (signInRun identifier password (Outcome.ok resp) (Outcome.ok u) s).state.refreshToken
            = s.refreshToken)
    ∧ (signInRun identifier password (Outcome.ok resp) (Outcome.ok u) s).value
        = some ⟨resp.access_token, resp.refresh_token, resp.expires_at, resp.expires⟩ := by
  rcases resp with ⟨a, r, ea, ex⟩
  cases ex <;>
    simp [signInRun, expiresGuardWrites, expiresGuardState]

/-- Claim C9, witness: a null-`expires` response writes no cookie yet
returns the tokens, and a response with `expires = 900` writes both
cookies. -/
theorem claim_C9_cookie_writes_witness :
    (signInRun "jdoe" "hunter2"
        (Outcome.ok ⟨some "at", some "rt", some 999, none⟩)
        (Outcome.ok "user-1") {}).cookieWrites = []
    ∧ (signInRun "jdoe" "hunter2"
        (Outcome.ok ⟨some "at", some "rt", some 999, none⟩)
        (Outcome.ok "user-1") {}).value =
          some ⟨some "at", some "rt", some 999, none⟩
    ∧ (signInRun "jdoe" "hunter2"
        (Outcome.ok ⟨some "at", some "rt", some 999, some 900⟩)
        (Outcome.ok "user-1") {}).cookieWrites =
          [⟨CookieName.refreshToken, some "rt", some 900⟩,
           ⟨CookieName.accessToken, some "at", some 900⟩] := by
  refine ⟨?_, ?_, ?_⟩
  · exact (claim_C9_cookie_writes "jdoe" "hunter2"
      ⟨some "at", some "rt", some 999, none⟩ "user-1" {}).1.mpr rfl
  · exact (claim_C9_cookie_writes "jdoe" "hunter2"
      ⟨some "at", some "rt", some 999, none⟩ "user-1" {}).2.2.2
  · exact (claim_C9_cookie_writes "jdoe" "hunter2"
      ⟨some "at", some "rt", some 999, some 900⟩ "user-1" {}).2.1 900 rfl
